import Mathlib

/-!
Shallow embedding of the emission core of the `pschitt` repository
(`pschitt/emission.py`): the transmission model, the angular/ground emission
profile family, and the Monte-Carlo masking engine, together with theorems
settling the specification claims about them.

Python floats are modelled as real numbers.  A numpy boolean used in
arithmetic (`(cond) * x`) is modelled as `(if cond then 1 else 0) * x`,
mirroring the source expressions term by term.  Python evaluates both
addends of the branch-blending expressions eagerly, so a division whose
denominator is zero faults even in the branch whose indicator is 0; a
function containing such a division is embedded with an `Option` result,
`none` exactly when the source would raise `ZeroDivisionError` (or produce
NaN on arrays).
-/

namespace Pschitt

noncomputable section

/-- `transmission(distances)` from `pschitt/emission.py`: returns
`np.ones(len(distances))`, one coefficient 1.0 per input distance. -/
def transmission (distances : List ℝ) : List ℝ :=
  List.replicate distances.length 1

/-- `constant_profile(dist)`: always 1. -/
def constant_profile (dist : ℝ) : ℝ := 1

/-- `emission_profile(dist)`: dummy selector, returns `constant_profile(dist)`. -/
def emission_profile (dist : ℝ) : ℝ := constant_profile dist

/-- `power_law_profile(dist, alpha=2)`: the body is `1./(1. + dist)**2` —
the exponent is the literal 2; the `alpha` argument is never used. -/
def power_law_profile (dist : ℝ) (alpha : ℝ := 2) : ℝ :=
  1 / (1 + dist) ^ (2 : ℕ)

/-- `ground_profile_heaviside(dist, shift=120)`: the body is
`(dist<=shift) * 1. + (dist>shift) * 0.`. -/
def ground_profile_heaviside (dist : ℝ) (shift : ℝ := 120) : ℝ :=
  (if dist ≤ shift then (1 : ℝ) else 0) * 1 +
    (if dist > shift then (1 : ℝ) else 0) * 0

/-- `ground_profile_1(dist, shift=120)`: the body is
`(dist<=shift) * 1. + (dist>shift) * 1./(dist - shift)`; by Python
precedence the second addend is `((dist>shift) * 1.) / (dist - shift)` and
the division is executed unconditionally, so the call faults when
`dist - shift == 0` (modelled as `none`). -/
def ground_profile_1 (dist : ℝ) (shift : ℝ := 120) : Option ℝ :=
  if dist - shift = 0 then none
  else some ((if dist ≤ shift then (1 : ℝ) else 0) * 1 +
    (if dist > shift then (1 : ℝ) else 0) * 1 / (dist - shift))

/-- `angular_profile_heaviside(angles, limit)`: elementwise
`1 * (angles <= limit)`; embedded at a single angle. -/
def angular_profile_heaviside (angles limit : ℝ) : ℝ :=
  1 * (if angles ≤ limit then (1 : ℝ) else 0)

/-- `angular_profile_exp_falloff(angles, break_angle, alpha)`: elementwise
`1 * (angles < break_angle) + np.exp(-alpha*(angles - break_angle)) * (angles >= break_angle)`;
embedded at a single angle. -/
def angular_profile_exp_falloff (angles break_angle alpha : ℝ) : ℝ :=
  1 * (if angles < break_angle then (1 : ℝ) else 0) +
    Real.exp (-alpha * (angles - break_angle)) *
      (if angles ≥ break_angle then (1 : ℝ) else 0)

/-- A 3D point or vector (a float triple). -/
structure Vec3 where
  x : ℝ
  y : ℝ
  z : ℝ

/-- Componentwise difference of 3D points, `a - b`. -/
def vsub (a b : Vec3) : Vec3 :=
  ⟨a.x - b.x, a.y - b.y, a.z - b.z⟩

/-- Euclidean dot product of 3D vectors. -/
def dot3 (a b : Vec3) : ℝ :=
  a.x * b.x + a.y * b.y + a.z * b.z

/-- Euclidean norm of a 3D vector. -/
def norm3 (a : Vec3) : ℝ :=
  Real.sqrt (dot3 a a)

/-- The telescope (instrument) record: `mirror_center` is the collecting-area
reference point; the remaining fields are carried along unchanged by the
core (`camera_center`, `normal`, `pixel_tab`, `signal_hist`, `id`). -/
structure Telescope where
  mirror_center : Vec3
  camera_center : Vec3
  normal : Vec3
  pixel_tab : List (ℝ × ℝ)
  signal_hist : List ℝ
  id : ℕ

/-- The shower record: an ordered particle population, pointing angles
`alt`/`az` defining the axis, and the ground impact point. -/
structure Shower where
  particles : List Vec3
  alt : ℝ
  az : ℝ
  impact_point : Vec3

/-- Modelled from the spec: the geometry provider's
`distance_shower_camera_center(shower, telescope)` (repository module
`pschitt/geometry.py`, not under src/) — Euclidean distance from each
particle to the instrument reference point `mirror_center`, same order as
`shower.particles`. -/
def distance_shower_camera_center (shower : Shower) (tel : Telescope) : List ℝ :=
  shower.particles.map fun p => norm3 (vsub p tel.mirror_center)

/-- Modelled from the spec: the geometry provider's `altaz_to_normal(alt, az)`
(repository module `pschitt/geometry.py`, not under src/) — converts pointing
angles to a 3D unit direction vector. -/
def altaz_to_normal (alt az : ℝ) : Vec3 :=
  ⟨Real.cos alt * Real.cos az, Real.cos alt * Real.sin az, Real.sin alt⟩

/-- Modelled from the spec: the geometry provider's `angle(v, w)` (repository
module `pschitt/geometry.py`, not under src/) — the angle between two 3D
vectors, non-negative and symmetric. -/
def angle (v w : Vec3) : ℝ :=
  Real.arccos (dot3 v w / (norm3 v * norm3 w))

/-- `mask_transmitted_particles(tel, shower, angular_profile, *args)` from
`pschitt/emission.py`.  The angular profile arrives with its extra `*args`
already applied (a function of the angle alone, applied elementwise as numpy
broadcasting does).  The ambient random source `np.random.rand` is injected
as the stream `rand`; the call consumes draws `rand 0, …, rand (n-1)` for the
`n = len(shower.particles)` particles, exactly as
`np.random.rand(len(shower.particles))` does.  The mask bit for particle `i`
is `p_trans[i] > rand[i]`. -/
def mask_transmitted_particles (tel : Telescope) (shower : Shower)
    (angular_profile : ℝ → ℝ) (rand : ℕ → ℝ) : List Bool :=
  let particle_distances := distance_shower_camera_center shower tel
  let transmissions := transmission particle_distances
  let shower_direction := altaz_to_normal shower.alt shower.az
  let angles := shower.particles.map fun particle =>
    angle shower_direction (vsub particle tel.mirror_center)
  let p_trans := List.zipWith (fun t p => t * p) transmissions
    (angles.map angular_profile)
  List.zipWith (fun p r => decide (p > r)) p_trans
    ((List.range shower.particles.length).map rand)

/-- The masking call together with the final state of its object arguments:
the source body only reads `tel` and `shower` (it binds locals and returns
the mask, assigning to no attribute of either argument), so the state it
leaves is the state it received. -/
def mask_transmitted_particlesState (tel : Telescope) (shower : Shower)
    (angular_profile : ℝ → ℝ) (rand : ℕ → ℝ) : List Bool × Telescope × Shower :=
  (mask_transmitted_particles tel shower angular_profile rand, tel, shower)

/-- A concrete telescope fixture for witnesses. -/
def tel0 : Telescope :=
  ⟨⟨0, 0, 0⟩, ⟨0, 0, 0⟩, ⟨0, 0, 1⟩, [(0, 0)], [0], 1⟩

/-- A concrete one-particle shower fixture for witnesses. -/
def shower0 : Shower :=
  ⟨[⟨0, 0, 1⟩], 0, 0, ⟨0, 0, 0⟩⟩

/-- A concrete deterministic random stream (all draws 0) for witnesses. -/
def zeroStream : ℕ → ℝ := fun i => 0

end

/-- C4: for every sequence of non-negative distances, `transmission` returns a
sequence of the same length in which every element is exactly 1 (hence lies in
the interval [0,1]); with all elements equal, input order is preserved. -/
theorem transmission_spec (distances : List ℝ) (h : ∀ d ∈ distances, 0 ≤ d) :
    (transmission distances).length = distances.length ∧
      ∀ x ∈ transmission distances, x = 1 ∧ 0 ≤ x ∧ x ≤ 1 := by
  refine ⟨List.length_replicate _ _, ?_⟩
  intro x hx
  have hx1 : x = 1 := List.eq_of_mem_replicate hx
  subst hx1
  norm_num

/-- Witness for C4 at the concrete distance list `[3, 5]`. -/
theorem transmission_spec_witness :
    (∀ d ∈ [(3 : ℝ), 5], 0 ≤ d) ∧
      ((transmission [(3 : ℝ), 5]).length = [(3 : ℝ), 5].length ∧
        ∀ x ∈ transmission [(3 : ℝ), 5], x = 1 ∧ 0 ≤ x ∧ x ≤ 1) :=
  ⟨by norm_num, transmission_spec [(3 : ℝ), 5] (by norm_num)⟩

/-- C10 (implicit): `power_law_profile` does not depend on its `alpha`
argument — the source body hardcodes the exponent 2 — and always equals
`1 / (1 + dist)^2`. -/
theorem power_law_profile_ignores_alpha (dist a1 a2 : ℝ) :
    power_law_profile dist a1 = power_law_profile dist a2 ∧
      power_law_profile dist a1 = 1 / (1 + dist) ^ (2 : ℕ) :=
  ⟨rfl, rfl⟩

/-- C2: code bug — the claim says `power_law_profile(angle, alpha)` equals
`1 / (1 + angle)^alpha`, matching the function's own docstring ("the power
index alpha"), but the body ignores `alpha`: at `dist = 1`, `alpha = 3` the
code returns 1/4 while the claimed formula gives 1/8. -/
theorem power_law_profile_alpha_bug :
    power_law_profile 1 3 = 1 / 4 ∧
      (1 : ℝ) / (1 + 1) ^ (3 : ℕ) = 1 / 8 ∧ (1 : ℝ) / 4 ≠ 1 / 8 := by
  refine ⟨?_, by norm_num, by norm_num⟩
  unfold power_law_profile
  norm_num

/-- C6: both heaviside-style profiles are exactly 1 for inputs at or below the
threshold and exactly 0 strictly above it; the boundary input yields 1, and
`ground_profile_heaviside`'s shift defaults to 120. -/
theorem heaviside_profiles_spec (d s : ℝ) :
    ground_profile_heaviside d s = (if d ≤ s then 1 else 0) ∧
      angular_profile_heaviside d s = (if d ≤ s then 1 else 0) ∧
      ground_profile_heaviside s s = 1 ∧
      angular_profile_heaviside s s = 1 ∧
      ground_profile_heaviside d = ground_profile_heaviside d 120 := by
  refine ⟨?_, ?_, ?_, ?_, rfl⟩
  · simp [ground_profile_heaviside]
  · simp [angular_profile_heaviside]
  · simp [ground_profile_heaviside]
  · simp [angular_profile_heaviside]

/-- C3: code bug — the claim says `ground_profile_1` returns 1 at an input
exactly equal to `shift`, but there the source computes
`((dist>shift) * 1.) / (dist - shift)`, a division by zero, so the call
faults instead of returning 1; strictly above `shift` it does return
`1/(dist - shift)`. -/
theorem ground_profile_1_boundary_fails (s d : ℝ) (hd : s < d) :
    ground_profile_1 s s = none ∧
      ground_profile_1 d s = some (1 / (d - s)) := by
  constructor
  · simp [ground_profile_1]
  · have hne : d - s ≠ 0 := sub_ne_zero.mpr (ne_of_gt hd)
    simp [ground_profile_1, hne, not_le.mpr hd, hd]

/-- Witness for C3's theorem at `shift = 120`, `dist = 121`. -/
theorem ground_profile_1_boundary_fails_witness :
    (120 : ℝ) < 121 ∧
      (ground_profile_1 120 120 = none ∧
        ground_profile_1 121 120 = some (1 / (121 - 120))) :=
  ⟨by norm_num, ground_profile_1_boundary_fails 120 121 (by norm_num)⟩

/-- C7: just past the shift boundary (0 < dist − shift < 1) `ground_profile_1`
returns a value strictly greater than 1 — the over-unity behaviour is present,
not clamped. -/
theorem ground_profile_1_over_unity (dist shift : ℝ)
    (h1 : shift < dist) (h2 : dist - shift < 1) :
    ∃ v, ground_profile_1 dist shift = some v ∧ 1 < v := by
  refine ⟨1 / (dist - shift), (ground_profile_1_boundary_fails shift dist h1).2, ?_⟩
  exact one_lt_one_div (sub_pos.mpr h1) h2

/-- Witness for C7 at `shift = 120`, `dist = 241/2`. -/
theorem ground_profile_1_over_unity_witness :
    (120 : ℝ) < 241 / 2 ∧ (241 : ℝ) / 2 - 120 < 1 ∧
      ∃ v, ground_profile_1 (241 / 2) 120 = some v ∧ 1 < v :=
  ⟨by norm_num, by norm_num,
    ground_profile_1_over_unity (241 / 2) 120 (by norm_num) (by norm_num)⟩

/-- C5: the exponential-falloff profile is 1 strictly below `break_angle`,
equals `exp(−alpha·(angle − break_angle))` at or above it, and the two branch
values agree at the break point, where the profile is exactly 1. -/
theorem angular_profile_exp_falloff_spec (b a x : ℝ) :
    (x < b → angular_profile_exp_falloff x b a = 1) ∧
      (b ≤ x → angular_profile_exp_falloff x b a = Real.exp (-a * (x - b))) ∧
      angular_profile_exp_falloff b b a = 1 ∧
      Real.exp (-a * (b - b)) = 1 := by
  refine ⟨?_, ?_, ?_, ?_⟩
  · intro h
    simp [angular_profile_exp_falloff, h, not_le.mpr h]
  · intro h
    simp [angular_profile_exp_falloff, h, not_lt.mpr h]
  · simp [angular_profile_exp_falloff]
  · simp

/-- Witness for C5 at `break_angle = 2`, `alpha = 5`, angles 1 (below) and
3 (above). -/
theorem angular_profile_exp_falloff_spec_witness :
    ((1 : ℝ) < 2 ∧ angular_profile_exp_falloff 1 2 5 = 1) ∧
      ((2 : ℝ) ≤ 3 ∧
        angular_profile_exp_falloff 3 2 5 = Real.exp (-5 * (3 - 2))) ∧
      angular_profile_exp_falloff 2 2 5 = 1 :=
  ⟨⟨by norm_num, (angular_profile_exp_falloff_spec 2 5 1).1 (by norm_num)⟩,
    ⟨by norm_num, (angular_profile_exp_falloff_spec 2 5 3).2.1 (by norm_num)⟩,
    (angular_profile_exp_falloff_spec 2 5 2).2.2.1⟩

/-- C1: for every telescope and shower with a non-empty particle list, and
every applied angular profile, the mask has length `len(shower.particles)`,
and, index-aligned with the particles, its `i`-th bit is true iff
`transmission(distances)[i] * angular_profile(angles)[i]` strictly exceeds
the `i`-th uniform draw, where `angles[i]` is the angle between the shower
axis direction and the vector from the mirror center to particle `i`. -/
theorem mask_transmitted_particles_spec (tel : Telescope) (shower : Shower)
    (angular_profile : ℝ → ℝ) (rand : ℕ → ℝ) (hne : shower.particles ≠ []) :
    (mask_transmitted_particles tel shower angular_profile rand).length
        = shower.particles.length ∧
      ∀ i, i < shower.particles.length →
        ((mask_transmitted_particles tel shower angular_profile rand).getD i false
            = true ↔
          (transmission (distance_shower_camera_center shower tel)).getD i 0 *
              angular_profile (angle (altaz_to_normal shower.alt shower.az)
                (vsub (shower.particles.getD i ⟨0, 0, 0⟩) tel.mirror_center))
            > rand i) := by
  have hlen : (mask_transmitted_particles tel shower angular_profile rand).length
      = shower.particles.length := by
    simp [mask_transmitted_particles, transmission, distance_shower_camera_center]
  have htr : (transmission (distance_shower_camera_center shower tel)).length
      = shower.particles.length := by
    simp [transmission, distance_shower_camera_center]
  refine ⟨hlen, ?_⟩
  intro i hi
  rw [List.getD_eq_getElem _ _ (by rw [hlen]; exact hi),
    List.getD_eq_getElem _ _ (by rw [htr]; exact hi),
    List.getD_eq_getElem _ _ hi]
  simp [mask_transmitted_particles, List.getElem_zipWith, List.getElem_map,
    List.getElem_range]

/-- Witness for C1 at the concrete fixture: one particle, constant profile,
all draws 0. -/
theorem mask_transmitted_particles_spec_witness :
    shower0.particles ≠ [] ∧
      ((mask_transmitted_particles tel0 shower0 constant_profile zeroStream).length
          = shower0.particles.length ∧
        ∀ i, i < shower0.particles.length →
          ((mask_transmitted_particles tel0 shower0 constant_profile
                zeroStream).getD i false = true ↔
            (transmission (distance_shower_camera_center shower0 tel0)).getD i 0 *
                constant_profile (angle (altaz_to_normal shower0.alt shower0.az)
                  (vsub (shower0.particles.getD i ⟨0, 0, 0⟩) tel0.mirror_center))
              > zeroStream i)) :=
  ⟨by simp [shower0],
    mask_transmitted_particles_spec tel0 shower0 constant_profile zeroStream
      (by simp [shower0])⟩

/-- C8: the masking call leaves every field of its telescope and shower
arguments unchanged — the state after the call equals the state before,
field by field. -/
theorem mask_transmitted_particles_frame (tel : Telescope) (shower : Shower)
    (angular_profile : ℝ → ℝ) (rand : ℕ → ℝ) :
    ((mask_transmitted_particlesState tel shower angular_profile rand).2.1 = tel ∧
      (mask_transmitted_particlesState tel shower angular_profile rand).2.2
        = shower) ∧
      ((mask_transmitted_particlesState tel shower angular_profile
          rand).2.1.mirror_center = tel.mirror_center ∧
        (mask_transmitted_particlesState tel shower angular_profile
          rand).2.1.camera_center = tel.camera_center ∧
        (mask_transmitted_particlesState tel shower angular_profile
          rand).2.1.normal = tel.normal ∧
        (mask_transmitted_particlesState tel shower angular_profile
          rand).2.1.pixel_tab = tel.pixel_tab ∧
        (mask_transmitted_particlesState tel shower angular_profile
          rand).2.1.signal_hist = tel.signal_hist ∧
        (mask_transmitted_particlesState tel shower angular_profile
          rand).2.1.id = tel.id) ∧
      ((mask_transmitted_particlesState tel shower angular_profile
          rand).2.2.particles = shower.particles ∧
        (mask_transmitted_particlesState tel shower angular_profile
          rand).2.2.alt = shower.alt ∧
        (mask_transmitted_particlesState tel shower angular_profile
          rand).2.2.az = shower.az ∧
        (mask_transmitted_particlesState tel shower angular_profile
          rand).2.2.impact_point = shower.impact_point) :=
  ⟨⟨rfl, rfl⟩, ⟨rfl, rfl, rfl, rfl, rfl, rfl⟩, ⟨rfl, rfl, rfl, rfl⟩⟩

/-- C9: the masking engine is deterministic given its randomness — two runs
on the same telescope, shower and profile that consume the same sequence of
uniform draws produce identical masks. -/
theorem mask_transmitted_particles_deterministic (tel : Telescope)
    (shower : Shower) (angular_profile : ℝ → ℝ) (r1 r2 : ℕ → ℝ)
    (h : ∀ i, r1 i = r2 i) :
    mask_transmitted_particles tel shower angular_profile r1 =
      mask_transmitted_particles tel shower angular_profile r2 := by
  have hr : r1 = r2 := funext h
  rw [hr]

/-- Witness for C9 at the concrete fixture with the all-zero draw stream on
both runs. -/
theorem mask_transmitted_particles_deterministic_witness :
    (∀ i : ℕ, zeroStream i = zeroStream i) ∧
      mask_transmitted_particles tel0 shower0 constant_profile zeroStream =
        mask_transmitted_particles tel0 shower0 constant_profile zeroStream :=
  ⟨fun _ => rfl,
    mask_transmitted_particles_deterministic tel0 shower0 constant_profile
      zeroStream zeroStream fun _ => rfl⟩

end Pschitt
